import Mathlib

/-!
Verification of the cool-roof savings calculator
(`src/streamlit_cool_roof_app.py`).

The script is one linear arithmetic pipeline driven by sidebar inputs.
We embed it over `ℚ`: every literal of the source (10.7639, 5833.0,
1055.06, 0.95, 1.05, 22.0, 0.2, ...) is an exact rational, and all the
operations of the pipeline are field operations, so the embedding is the
source's arithmetic with exact semantics.  Names follow the script's
variable names.
-/

namespace CoolRoof

/-- The roof material selectbox (line 33): "Blacha (metal)", "Beton",
"Papa/bitum". -/
inductive RoofType
  | Metal
  | Concrete
  | BitumenFelt
deriving DecidableEq

/-- Heuristic roof-type multipliers, the `roof_multipliers` dict
(lines 65-69): metal 1.00, concrete 0.95, bitumen felt 1.05. -/
def roof_multipliers : RoofType → ℚ
  | .Metal => 1
  | .Concrete => 95 / 100
  | .BitumenFelt => 105 / 100

/-- The AC efficiency band selectbox (line 36): "Stary", "Standard",
"Wysoka sprawność". -/
inductive AcBand
  | Old
  | Standard
  | HighEfficiency
deriving DecidableEq

/-- The band branch of lines 43-48: old 9.0, standard 11.0, otherwise 13.0. -/
def band_eer : AcBand → ℚ
  | .Old => 9
  | .Standard => 11
  | .HighEfficiency => 13

/-- The effective EER (lines 38-48): the custom number input when the
"Podaj własny EER" checkbox is on, otherwise the band-derived constant. -/
def eer_value (custom_eer_on : Bool) (custom_eer : ℚ) (ac_band : AcBand) : ℚ :=
  if custom_eer_on then custom_eer else band_eer ac_band

/-- The validated sidebar inputs consumed by the core calculation
(lines 32-52, 70).  The widgets enforce `area_m2 ≥ 10`, `eer ≥ 5`,
`price_pln ≥ 0`, `ef_kg_per_kwh ≥ 0`. -/
structure CalculationInput where
  area_m2 : ℚ
  roof_type : RoofType
  eer : ℚ
  price_pln : ℚ
  ef_kg_per_kwh : ℚ

/-- Line 73: `FT2_PER_M2 = 10.7639`. -/
def FT2_PER_M2 : ℚ := 107639 / 10000

/-- Line 74: `BTU_TO_J = 1055.06`. -/
def BTU_TO_J : ℚ := 105506 / 100

/-- Line 76: `area_ft2 = area_m2 * FT2_PER_M2`. -/
def area_ft2 (i : CalculationInput) : ℚ := i.area_m2 * FT2_PER_M2

/-- Line 77: `reduction_btu_per_ft2 = 5833.0 * roof_mult`. -/
def reduction_btu_per_ft2 (i : CalculationInput) : ℚ :=
  5833 * roof_multipliers i.roof_type

/-- Line 78: `total_reduction_btu = area_ft2 * reduction_btu_per_ft2`. -/
def total_reduction_btu (i : CalculationInput) : ℚ :=
  area_ft2 i * reduction_btu_per_ft2 i

/-- Line 82: `kwh_saved = total_reduction_btu / (eer * 1000.0)`. -/
def kwh_saved (i : CalculationInput) : ℚ :=
  total_reduction_btu i / (i.eer * 1000)

/-- Line 85: `pln_saved = kwh_saved * price_pln`. -/
def pln_saved (i : CalculationInput) : ℚ := kwh_saved i * i.price_pln

/-- Line 86: `kg_co2_saved = kwh_saved * ef_kg_per_kwh`. -/
def kg_co2_saved (i : CalculationInput) : ℚ := kwh_saved i * i.ef_kg_per_kwh

/-- Line 87: `t_co2_saved = kg_co2_saved / 1000.0`. -/
def t_co2_saved (i : CalculationInput) : ℚ := kg_co2_saved i / 1000

/-- Line 90: `gj_saved = (total_reduction_btu * BTU_TO_J) / 1e9`. -/
def gj_saved (i : CalculationInput) : ℚ :=
  (total_reduction_btu i * BTU_TO_J) / 1000000000

/-- Line 93: `KG_PER_TREE_PER_YEAR = 22.0`. -/
def KG_PER_TREE_PER_YEAR : ℚ := 22

/-- Line 94: `KG_PER_CAR_KM = 0.2`. -/
def KG_PER_CAR_KM : ℚ := 2 / 10

/-- Line 96: `trees_eq = kg_co2_saved / KG_PER_TREE_PER_YEAR if
KG_PER_TREE_PER_YEAR > 0 else 0`. -/
def trees_eq (i : CalculationInput) : ℚ :=
  if KG_PER_TREE_PER_YEAR > 0 then kg_co2_saved i / KG_PER_TREE_PER_YEAR else 0

/-- Line 97: `km_eq = kg_co2_saved / KG_PER_CAR_KM if KG_PER_CAR_KM > 0
else 0`. -/
def km_eq (i : CalculationInput) : ℚ :=
  if KG_PER_CAR_KM > 0 then kg_co2_saved i / KG_PER_CAR_KM else 0

/-- Line 100: `years = np.arange(1, 21)`, the list `[1, 2, ..., 20]`. -/
def years : List ℕ := List.range' 1 20

/-- Lines 101-103: `np.full_like(years, v, dtype=float)`, one copy of the
per-year value for each entry of `years`. -/
def full_like (v : ℚ) : List ℚ := years.map (fun _ => v)

/-- Running-sum worker for `np.cumsum`, with an explicit accumulator. -/
def cumsum_from (acc : ℚ) : List ℚ → List ℚ
  | [] => []
  | x :: xs => (acc + x) :: cumsum_from (acc + x) xs

/-- Lines 105-107: `np.cumsum`, running sums starting from 0. -/
def cumsum (xs : List ℚ) : List ℚ := cumsum_from 0 xs

/-- Lines 101 and 105: `kwh_cum = np.cumsum(kwh_yearly)`. -/
def kwh_cum (i : CalculationInput) : List ℚ := cumsum (full_like (kwh_saved i))

/-- Lines 102 and 106: `pln_cum = np.cumsum(pln_yearly)`. -/
def pln_cum (i : CalculationInput) : List ℚ := cumsum (full_like (pln_saved i))

/-- Lines 103 and 107: `tco2_cum = np.cumsum(tco2_yearly)`. -/
def tco2_cum (i : CalculationInput) : List ℚ :=
  cumsum (full_like (t_co2_saved i))

/-- Line 162: `capex = unit_cost * area_m2`. -/
def capex (i : CalculationInput) (unit_cost : ℚ) : ℚ := unit_cost * i.area_m2

/-- The payback branch (lines 160-167): when the cost is supplied, the
script shows `capex / pln_saved` only if `pln_saved > 0` and otherwise a
"no cost savings" warning with no number; `none` models the warning. -/
def payback_years (i : CalculationInput) (unit_cost : ℚ) : Option ℚ :=
  if pln_saved i > 0 then some (capex i unit_cost / pln_saved i) else none

/-- The one-row CSV summary dict (lines 173-185), field names as in the
source.  The `kWh_20lat`, `PLN_20lat`, `tCO2_20lat` fields take
`kwh_cum[-1]` etc., the last cumulative entry. -/
structure SummaryRow where
  Powierzchnia_m2 : ℚ
  Rodzaj_dachu : RoofType
  EER : ℚ
  Cena_energii_PLN_kWh : ℚ
  EF_kgCO2_kWh : ℚ
  kWh_rok : ℚ
  PLN_rok : ℚ
  tCO2_rok : ℚ
  kWh_20lat : ℚ
  PLN_20lat : ℚ
  tCO2_20lat : ℚ

/-- The summary row built on lines 173-185. -/
def summary (i : CalculationInput) : SummaryRow :=
  { Powierzchnia_m2 := i.area_m2
  , Rodzaj_dachu := i.roof_type
  , EER := i.eer
  , Cena_energii_PLN_kWh := i.price_pln
  , EF_kgCO2_kWh := i.ef_kg_per_kwh
  , kWh_rok := kwh_saved i
  , PLN_rok := pln_saved i
  , tCO2_rok := t_co2_saved i
  , kWh_20lat := (kwh_cum i).getLastD 0
  , PLN_20lat := (pln_cum i).getLastD 0
  , tCO2_20lat := (tco2_cum i).getLastD 0 }

/-- The column order of the exported CSV: the dict literal of lines
173-185 is built in this key order and `pandas.DataFrame.to_csv` writes
the columns in that order. -/
def summary_columns : List String :=
  ["Powierzchnia_m2", "Rodzaj_dachu", "EER", "Cena_energii_PLN_kWh",
   "EF_kgCO2_kWh", "kWh_rok", "PLN_rok", "tCO2_rok",
   "kWh_20lat", "PLN_20lat", "tCO2_20lat"]

/-- Everything the script derives from one input set, bundled so that a
whole run can be compared with another run. -/
structure CalculationResult where
  reduction_btu_per_ft2 : ℚ
  total_reduction_btu : ℚ
  kwh_saved : ℚ
  pln_saved : ℚ
  kg_co2_saved : ℚ
  t_co2_saved : ℚ
  gj_saved : ℚ
  trees_eq : ℚ
  km_eq : ℚ
  kwh_cum : List ℚ
  pln_cum : List ℚ
  tco2_cum : List ℚ
  payback : Option ℚ
  summary : SummaryRow

/-- The full run of the script's computation for one input set, with the
optional payback section controlled by the `cost_on` checkbox (line 159). -/
def compute (i : CalculationInput) (cost_on : Bool) (unit_cost : ℚ) :
    CalculationResult :=
  { reduction_btu_per_ft2 := reduction_btu_per_ft2 i
  , total_reduction_btu := total_reduction_btu i
  , kwh_saved := kwh_saved i
  , pln_saved := pln_saved i
  , kg_co2_saved := kg_co2_saved i
  , t_co2_saved := t_co2_saved i
  , gj_saved := gj_saved i
  , trees_eq := trees_eq i
  , km_eq := km_eq i
  , kwh_cum := kwh_cum i
  , pln_cum := pln_cum i
  , tco2_cum := tco2_cum i
  , payback := if cost_on then payback_years i unit_cost else none
  , summary := summary i }

/-- The sidebar state as collected before the core pipeline runs: the EER
is resolved from the checkbox/band (lines 38-48). -/
def mkInput (area_m2 : ℚ) (roof_type : RoofType) (custom_eer_on : Bool)
    (custom_eer : ℚ) (ac_band : AcBand) (price_pln ef_kg_per_kwh : ℚ) :
    CalculationInput :=
  { area_m2 := area_m2
  , roof_type := roof_type
  , eer := eer_value custom_eer_on custom_eer ac_band
  , price_pln := price_pln
  , ef_kg_per_kwh := ef_kg_per_kwh }

/-- The spec's example scenario: 1000 m², metal roof, EER 11,
0.85 zł/kWh, 0.77 kg CO₂/kWh. -/
def exInput : CalculationInput :=
  { area_m2 := 1000
  , roof_type := .Metal
  , eer := 11
  , price_pln := 85 / 100
  , ef_kg_per_kwh := 77 / 100 }

/-! ### Helper lemmas about the 20-year cumulative lists -/

lemma cumsum_from_length (acc : ℚ) (l : List ℚ) :
    (cumsum_from acc l).length = l.length := by
  induction l generalizing acc with
  | nil => rfl
  | cons x xs ih => simp [cumsum_from, ih]

lemma cumsum_from_replicate_getD (x : ℚ) (n : ℕ) :
    ∀ (j : ℕ) (acc : ℚ), j < n →
      (cumsum_from acc (List.replicate n x)).getD j 0 =
        acc + ((j : ℚ) + 1) * x := by
  induction n with
  | zero => intro j acc h; exact absurd h (Nat.not_lt_zero j)
  | succ n ih =>
      intro j acc h
      cases j with
      | zero => simp [cumsum_from]
      | succ j =>
          simp only [List.replicate_succ, cumsum_from, List.getD_cons_succ]
          rw [ih j (acc + x) (by omega)]
          push_cast
          ring

lemma full_like_eq_replicate (v : ℚ) : full_like v = List.replicate 20 v := by
  rw [full_like, List.map_const']
  norm_num [years, List.length_range']

lemma cum_const_length (v : ℚ) : (cumsum (full_like v)).length = 20 := by
  rw [cumsum, full_like_eq_replicate, cumsum_from_length, List.length_replicate]

lemma cum_const_getD (v : ℚ) (j : ℕ) (h : j < 20) :
    (cumsum (full_like v)).getD j 0 = ((j : ℚ) + 1) * v := by
  rw [cumsum, full_like_eq_replicate, cumsum_from_replicate_getD v 20 j 0 h]
  ring

lemma getLastD_eq_getD (l : List ℚ) (d : ℚ) :
    l.getLastD d = l.getD (l.length - 1) d := by
  cases l with
  | nil => rfl
  | cons a l =>
      simp [List.getLastD_eq_getLast?, List.getLast?_eq_getElem?,
        List.getD_eq_getElem?_getD]

/-! ### Claims -/

/-- C1: for every valid input (area ≥ 10 m², EER ≥ 5, non-negative energy
price and emission factor) the computation produces exactly the pipeline
values: `area_ft2 = area_m2 * 10.7639`,
`total_reduction_btu = area_ft2 * reduction_btu_per_ft2`,
`kwh_saved = total_reduction_btu / (eer * 1000)`,
`pln_saved = kwh_saved * price`, `kg_co2_saved = kwh_saved * ef`,
`t_co2_saved = kg_co2_saved / 1000`, and
`gj_saved = total_reduction_btu * 1055.06 / 1e9`. -/
theorem compute_pipeline_exact (i : CalculationInput)
    (h1 : 10 ≤ i.area_m2) (h2 : 5 ≤ i.eer)
    (h3 : 0 ≤ i.price_pln) (h4 : 0 ≤ i.ef_kg_per_kwh) :
    area_ft2 i = i.area_m2 * (107639 / 10000) ∧
    total_reduction_btu i = area_ft2 i * reduction_btu_per_ft2 i ∧
    kwh_saved i = total_reduction_btu i / (i.eer * 1000) ∧
    pln_saved i = kwh_saved i * i.price_pln ∧
    kg_co2_saved i = kwh_saved i * i.ef_kg_per_kwh ∧
    t_co2_saved i = kg_co2_saved i / 1000 ∧
    gj_saved i = (total_reduction_btu i * (105506 / 100)) / 1000000000 :=
  ⟨rfl, rfl, rfl, rfl, rfl, rfl, rfl⟩

/-- Witness for C1 at the example scenario input. -/
theorem compute_pipeline_exact_witness :
    area_ft2 exInput = exInput.area_m2 * (107639 / 10000) ∧
    total_reduction_btu exInput = area_ft2 exInput * reduction_btu_per_ft2 exInput ∧
    kwh_saved exInput = total_reduction_btu exInput / (exInput.eer * 1000) ∧
    pln_saved exInput = kwh_saved exInput * exInput.price_pln ∧
    kg_co2_saved exInput = kwh_saved exInput * exInput.ef_kg_per_kwh ∧
    t_co2_saved exInput = kg_co2_saved exInput / 1000 ∧
    gj_saved exInput = (total_reduction_btu exInput * (105506 / 100)) / 1000000000 :=
  compute_pipeline_exact exInput (by norm_num [exInput]) (by norm_num [exInput])
    (by norm_num [exInput]) (by norm_num [exInput])

/-- C2: the roof-type multipliers are exactly 1.00 (metal), 0.95
(concrete), 1.05 (bitumen felt); `reduction_btu_per_ft2` is 5833 times
the multiplier, and for fixed other inputs its ordering is
bitumen felt > metal > concrete. -/
theorem roof_reduction_and_order (i : CalculationInput) :
    roof_multipliers RoofType.Metal = 1 ∧
    roof_multipliers RoofType.Concrete = 95 / 100 ∧
    roof_multipliers RoofType.BitumenFelt = 105 / 100 ∧
    reduction_btu_per_ft2 { i with roof_type := RoofType.Metal } =
      5833 * roof_multipliers RoofType.Metal ∧
    reduction_btu_per_ft2 { i with roof_type := RoofType.Concrete } =
      5833 * roof_multipliers RoofType.Concrete ∧
    reduction_btu_per_ft2 { i with roof_type := RoofType.BitumenFelt } =
      5833 * roof_multipliers RoofType.BitumenFelt ∧
    reduction_btu_per_ft2 { i with roof_type := RoofType.Metal } <
      reduction_btu_per_ft2 { i with roof_type := RoofType.BitumenFelt } ∧
    reduction_btu_per_ft2 { i with roof_type := RoofType.Concrete } <
      reduction_btu_per_ft2 { i with roof_type := RoofType.Metal } := by
  norm_num [reduction_btu_per_ft2, roof_multipliers]

/-- C3: with the custom-EER checkbox off, the EER comes from the AC band
by the fixed mapping old → 9, standard → 11, high efficiency → 13; with
the checkbox on, it equals the supplied value, which the widget keeps
at least 5. -/
theorem eer_band_mapping (custom_eer : ℚ) (b : AcBand) (h : 5 ≤ custom_eer) :
    eer_value false custom_eer AcBand.Old = 9 ∧
    eer_value false custom_eer AcBand.Standard = 11 ∧
    eer_value false custom_eer AcBand.HighEfficiency = 13 ∧
    eer_value true custom_eer b = custom_eer ∧
    5 ≤ eer_value true custom_eer b := by
  refine ⟨rfl, rfl, rfl, rfl, ?_⟩
  simpa [eer_value] using h

/-- Witness for C3 with a custom EER of 11 and the standard band. -/
theorem eer_band_mapping_witness :
    eer_value false 11 AcBand.Old = 9 ∧
    eer_value false 11 AcBand.Standard = 11 ∧
    eer_value false 11 AcBand.HighEfficiency = 13 ∧
    eer_value true 11 AcBand.Standard = 11 ∧
    (5 : ℚ) ≤ eer_value true 11 AcBand.Standard :=
  eer_band_mapping 11 AcBand.Standard (by norm_num)

/-- C4: with a coating cost supplied, the payback is
`unit_cost * area_m2 / pln_saved` exactly when the yearly cost saving is
positive, and is absent (`none`, not any number) otherwise; whenever a
numeric payback is produced, its divisor `pln_saved` is nonzero. -/
theorem payback_guard (i : CalculationInput) (unit_cost : ℚ) :
    payback_years i unit_cost =
      (if 0 < pln_saved i then some (unit_cost * i.area_m2 / pln_saved i)
       else none) ∧
    (payback_years i unit_cost = none ∨
      ∃ v, payback_years i unit_cost = some v ∧ pln_saved i ≠ 0) := by
  constructor
  · simp [payback_years, capex]
  · by_cases h : 0 < pln_saved i
    · exact Or.inr ⟨capex i unit_cost / pln_saved i,
        by simp [payback_years, h], ne_of_gt h⟩
    · exact Or.inl (by simp [payback_years, h])

/-- C5: the cumulative projection lists have exactly 20 entries
(years 1..20), and for every year `n` in 1..20 the entry at position
`n - 1` equals exactly `n` times the per-year value, for kWh, currency
and tonnes of CO₂ alike. -/
theorem cumulative_projection (i : CalculationInput) (n : ℕ)
    (h1 : 1 ≤ n) (h2 : n ≤ 20) :
    (kwh_cum i).length = 20 ∧ (pln_cum i).length = 20 ∧
    (tco2_cum i).length = 20 ∧
    (kwh_cum i).getD (n - 1) 0 = (n : ℚ) * kwh_saved i ∧
    (pln_cum i).getD (n - 1) 0 = (n : ℚ) * pln_saved i ∧
    (tco2_cum i).getD (n - 1) 0 = (n : ℚ) * t_co2_saved i := by
  have hn : ((n - 1 : ℕ) : ℚ) + 1 = (n : ℚ) := by
    rw [Nat.cast_sub h1]; push_cast; ring
  refine ⟨cum_const_length _, cum_const_length _, cum_const_length _, ?_, ?_, ?_⟩
  · show (cumsum (full_like (kwh_saved i))).getD (n - 1) 0 = (n : ℚ) * kwh_saved i
    rw [cum_const_getD _ _ (by omega), hn]
  · show (cumsum (full_like (pln_saved i))).getD (n - 1) 0 = (n : ℚ) * pln_saved i
    rw [cum_const_getD _ _ (by omega), hn]
  · show (cumsum (full_like (t_co2_saved i))).getD (n - 1) 0 = (n : ℚ) * t_co2_saved i
    rw [cum_const_getD _ _ (by omega), hn]

/-- Witness for C5 at the example input and year 20. -/
theorem cumulative_projection_witness :
    (kwh_cum exInput).length = 20 ∧ (pln_cum exInput).length = 20 ∧
    (tco2_cum exInput).length = 20 ∧
    (kwh_cum exInput).getD 19 0 = ((20 : ℕ) : ℚ) * kwh_saved exInput ∧
    (pln_cum exInput).getD 19 0 = ((20 : ℕ) : ℚ) * pln_saved exInput ∧
    (tco2_cum exInput).getD 19 0 = ((20 : ℕ) : ℚ) * t_co2_saved exInput :=
  cumulative_projection exInput 20 (by norm_num) (by norm_num)

/-- C6 counterexample: at the spec's example scenario (1000 m², metal,
EER 11, 0.85 zł/kWh, 0.77 kg/kWh) the code yields
`kwh_saved = 627858287/110000 ≈ 5707.80`, which is more than half a
display unit (0.05) away from the claimed ≈ 5707.9, and
`total_reduction_btu = 62785828.7`, which is more than 1000 Btu away
from the claimed ≈ 62,786,879. -/
theorem example_scenario_counterexample :
    (1 / 20 : ℚ) < |kwh_saved exInput - 57079 / 10| ∧
    (1000 : ℚ) < |total_reduction_btu exInput - 62786879| := by
  have h1 : kwh_saved exInput = 627858287 / 110000 := by
    norm_num [kwh_saved, total_reduction_btu, area_ft2, reduction_btu_per_ft2,
      roof_multipliers, FT2_PER_M2, exInput]
  have h2 : total_reduction_btu exInput = 627858287 / 10 := by
    norm_num [total_reduction_btu, area_ft2, reduction_btu_per_ft2,
      roof_multipliers, FT2_PER_M2, exInput]
  rw [h1, h2]
  constructor
  · rw [abs_of_neg (by norm_num)]; norm_num
  · rw [abs_of_neg (by norm_num)]; norm_num

/-- C6 amended: at the example scenario the exact outputs are
`area_ft2 = 10763.9`, `reduction_btu_per_ft2 = 5833`,
`total_reduction_btu = 62785828.7` (≈ 62,785,829),
`kwh_saved = 627858287/110000` (≈ 5707.8),
`pln_saved ≈ 4851.6`, `kg_co2_saved ≈ 4395.0`, `t_co2_saved ≈ 4.395`;
with a coating cost of 50 zł/m², `capex = 50000` and the payback is
`110000000000/10673590879` (≈ 10.3) years. -/
theorem example_scenario_amended :
    area_ft2 exInput = 107639 / 10 ∧
    reduction_btu_per_ft2 exInput = 5833 ∧
    total_reduction_btu exInput = 627858287 / 10 ∧
    kwh_saved exInput = 627858287 / 110000 ∧
    pln_saved exInput = 10673590879 / 2200000 ∧
    kg_co2_saved exInput = 4395008009 / 1000000 ∧
    t_co2_saved exInput = 4395008009 / 1000000000 ∧
    capex exInput 50 = 50000 ∧
    payback_years exInput 50 = some (110000000000 / 10673590879) ∧
    |total_reduction_btu exInput - 62785829| ≤ 1 ∧
    |kwh_saved exInput - 57078 / 10| ≤ 1 / 20 ∧
    |pln_saved exInput - 48516 / 10| ≤ 1 / 20 ∧
    |kg_co2_saved exInput - 43950 / 10| ≤ 1 / 20 ∧
    |t_co2_saved exInput - 4395 / 1000| ≤ 1 / 2000 ∧
    |(110000000000 : ℚ) / 10673590879 - 103 / 10| ≤ 1 / 20 := by
  have h1 : kwh_saved exInput = 627858287 / 110000 := by
    norm_num [kwh_saved, total_reduction_btu, area_ft2, reduction_btu_per_ft2,
      roof_multipliers, FT2_PER_M2, exInput]
  have h2 : total_reduction_btu exInput = 627858287 / 10 := by
    norm_num [total_reduction_btu, area_ft2, reduction_btu_per_ft2,
      roof_multipliers, FT2_PER_M2, exInput]
  have h3 : pln_saved exInput = 10673590879 / 2200000 := by
    rw [pln_saved, h1]; norm_num [exInput]
  have h4 : kg_co2_saved exInput = 4395008009 / 1000000 := by
    rw [kg_co2_saved, h1]; norm_num [exInput]
  have h5 : t_co2_saved exInput = 4395008009 / 1000000000 := by
    rw [t_co2_saved, h4]; norm_num
  have h6 : capex exInput 50 = 50000 := by norm_num [capex, exInput]
  have h7 : payback_years exInput 50 = some (110000000000 / 10673590879) := by
    rw [payback_years, if_pos (by rw [h3]; norm_num)]
    rw [h3, h6]
    norm_num
  refine ⟨by norm_num [area_ft2, FT2_PER_M2, exInput],
    by norm_num [reduction_btu_per_ft2, roof_multipliers, exInput],
    h2, h1, h3, h4, h5, h6, h7, ?_, ?_, ?_, ?_, ?_, ?_⟩
  · rw [h2, abs_of_neg (by norm_num)]; norm_num
  · rw [h1, abs_of_pos (by norm_num)]; norm_num
  · rw [h3, abs_of_pos (by norm_num)]; norm_num
  · rw [h4, abs_of_pos (by norm_num)]; norm_num
  · rw [h5, abs_of_pos (by norm_num)]; norm_num
  · rw [abs_of_pos (by norm_num)]; norm_num

/-- C7: under valid input (area ≥ 10, EER ≥ 5, non-negative price and
emission factor) every divisor of the pipeline is nonzero — `eer * 1000`,
the fixed equivalence constants 22 and 0.2 are positive, and a numeric
payback only ever arises with a nonzero `pln_saved` — and `kwh_saved`,
`kg_co2_saved` and `t_co2_saved` are non-negative, so no output of the
exact-arithmetic pipeline is an invalid value. -/
theorem valid_input_safety (i : CalculationInput) (unit_cost : ℚ)
    (h1 : 10 ≤ i.area_m2) (h2 : 5 ≤ i.eer)
    (h3 : 0 ≤ i.price_pln) (h4 : 0 ≤ i.ef_kg_per_kwh) :
    i.eer * 1000 ≠ 0 ∧
    0 < KG_PER_TREE_PER_YEAR ∧ 0 < KG_PER_CAR_KM ∧
    0 ≤ kwh_saved i ∧ 0 ≤ kg_co2_saved i ∧ 0 ≤ t_co2_saved i ∧
    ∀ v, payback_years i unit_cost = some v → pln_saved i ≠ 0 := by
  have heer : (0 : ℚ) < i.eer := by linarith
  have hmult : (0 : ℚ) ≤ roof_multipliers i.roof_type := by
    cases i.roof_type <;> norm_num [roof_multipliers]
  have harea : (0 : ℚ) ≤ i.area_m2 := by linarith
  have htot : 0 ≤ total_reduction_btu i := by
    rw [total_reduction_btu, area_ft2, reduction_btu_per_ft2]
    have hb : (0 : ℚ) ≤ 5833 * roof_multipliers i.roof_type := by
      have : (0 : ℚ) ≤ 5833 := by norm_num
      exact mul_nonneg this hmult
    exact mul_nonneg (mul_nonneg harea (by norm_num [FT2_PER_M2])) hb
  have hdiv : (0 : ℚ) < i.eer * 1000 := by
    have : (0 : ℚ) < 1000 := by norm_num
    exact mul_pos heer this
  have hkwh : 0 ≤ kwh_saved i := div_nonneg htot (le_of_lt hdiv)
  have hkg : 0 ≤ kg_co2_saved i := mul_nonneg hkwh h4
  refine ⟨ne_of_gt hdiv, by norm_num [KG_PER_TREE_PER_YEAR],
    by norm_num [KG_PER_CAR_KM], hkwh, hkg,
    div_nonneg hkg (by norm_num), ?_⟩
  intro v hv
  by_cases hp : 0 < pln_saved i
  · exact ne_of_gt hp
  · simp [payback_years, hp] at hv

/-- Witness for C7 at the example input with a coating cost of 50. -/
theorem valid_input_safety_witness :
    exInput.eer * 1000 ≠ 0 ∧
    0 < KG_PER_TREE_PER_YEAR ∧ 0 < KG_PER_CAR_KM ∧
    0 ≤ kwh_saved exInput ∧ 0 ≤ kg_co2_saved exInput ∧
    0 ≤ t_co2_saved exInput ∧
    ∀ v, payback_years exInput 50 = some v → pln_saved exInput ≠ 0 :=
  valid_input_safety exInput 50 (by norm_num [exInput]) (by norm_num [exInput])
    (by norm_num [exInput]) (by norm_num [exInput])

/-- C8: doubling the roof area while keeping the roof type, EER, price
and emission factor fixed exactly doubles `total_reduction_btu`,
`kwh_saved`, `pln_saved` and `kg_co2_saved`. -/
theorem area_doubling_linearity (i : CalculationInput) :
    total_reduction_btu { i with area_m2 := 2 * i.area_m2 } =
      2 * total_reduction_btu i ∧
    kwh_saved { i with area_m2 := 2 * i.area_m2 } = 2 * kwh_saved i ∧
    pln_saved { i with area_m2 := 2 * i.area_m2 } = 2 * pln_saved i ∧
    kg_co2_saved { i with area_m2 := 2 * i.area_m2 } =
      2 * kg_co2_saved i := by
  refine ⟨?_, ?_, ?_, ?_⟩ <;>
    simp only [total_reduction_btu, kwh_saved, pln_saved, kg_co2_saved,
      area_ft2, reduction_btu_per_ft2] <;>
    ring

/-- C9: the exported one-row CSV summary has exactly the columns
area, roof type, EER, price, emission factor, annual kWh/PLN/tCO₂ and
20-year kWh/PLN/tCO₂ in that order; the input and annual fields carry the
corresponding input and per-year values, and each 20-year total equals
the year-20 (last) entry of the corresponding cumulative list. -/
theorem csv_summary_row (i : CalculationInput) :
    summary_columns =
      ["Powierzchnia_m2", "Rodzaj_dachu", "EER", "Cena_energii_PLN_kWh",
       "EF_kgCO2_kWh", "kWh_rok", "PLN_rok", "tCO2_rok",
       "kWh_20lat", "PLN_20lat", "tCO2_20lat"] ∧
    (summary i).Powierzchnia_m2 = i.area_m2 ∧
    (summary i).Rodzaj_dachu = i.roof_type ∧
    (summary i).EER = i.eer ∧
    (summary i).Cena_energii_PLN_kWh = i.price_pln ∧
    (summary i).EF_kgCO2_kWh = i.ef_kg_per_kwh ∧
    (summary i).kWh_rok = kwh_saved i ∧
    (summary i).PLN_rok = pln_saved i ∧
    (summary i).tCO2_rok = t_co2_saved i ∧
    (summary i).kWh_20lat = (kwh_cum i).getD 19 0 ∧
    (summary i).PLN_20lat = (pln_cum i).getD 19 0 ∧
    (summary i).tCO2_20lat = (tco2_cum i).getD 19 0 := by
  refine ⟨rfl, rfl, rfl, rfl, rfl, rfl, rfl, rfl, rfl, ?_, ?_, ?_⟩
  · show (cumsum (full_like (kwh_saved i))).getLastD 0 =
      (cumsum (full_like (kwh_saved i))).getD 19 0
    rw [getLastD_eq_getD, cum_const_length]
  · show (cumsum (full_like (pln_saved i))).getLastD 0 =
      (cumsum (full_like (pln_saved i))).getD 19 0
    rw [getLastD_eq_getD, cum_const_length]
  · show (cumsum (full_like (t_co2_saved i))).getLastD 0 =
      (cumsum (full_like (t_co2_saved i))).getD 19 0
    rw [getLastD_eq_getD, cum_const_length]

/-- C10: when the custom-EER checkbox is on, the whole computed result —
every derived metric, the cumulative lists, the payback and the CSV
summary — is identical for any two choices of the AC efficiency band,
because the band-to-EER mapping is only consulted when no custom EER is
given. -/
theorem custom_eer_band_independence (a : ℚ) (r : RoofType) (c : ℚ)
    (b1 b2 : AcBand) (p e : ℚ) (cost_on : Bool) (u : ℚ) :
    compute (mkInput a r true c b1 p e) cost_on u =
      compute (mkInput a r true c b2 p e) cost_on u := by
  have h : mkInput a r true c b1 p e = mkInput a r true c b2 p e := by
    simp [mkInput, eer_value]
  rw [h]

end CoolRoof
